import Mathlib

/-!
Shallow embedding of the Boostify conversation bot (`src/bot.py`).

The bot is a Telegram front-end over a remote "social marketing" reseller
API.  Two layers are embedded here:

* the Remote Service Client: `calculate_price` is embedded in full; the
  other client operations (`place_order`, `cancel_orders`,
  `fetch_categories`, `fetch_services`, `fetch_balance`,
  `fetch_order_status`) catch their own failures in the Python source and
  always return plain values, so for the controller they are opaque
  oracles — the `Remote` structure below supplies their results;
* the Conversation Controller: the `start`, `button` and `handle_message`
  handlers, acting on the per-user `context.user_data` dictionary
  (embedded as `UserData`).

Python strings are embedded as `List Char` (named `Str`), and the string
builtins the bot uses (`strip`, `split`, `startswith`, `isdigit`,
`int(...)`) as structurally recursive functions on it, so every concrete
run evaluates inside the kernel.  Python floats that carry prices are
embedded as rationals (`ℚ`); Python integers do not overflow, so
quantities are `Int`.  A raised Python exception that escapes a handler
is recorded in the `raised` field of `Result` together with the state at
the moment of the raise.
-/

namespace Boostify

/-! ### Python strings and their builtins -/

/-- A Python string, as its character list. -/
def Str : Type := List Char

instance : DecidableEq Str := by unfold Str; infer_instance

instance : Append Str := by unfold Str; infer_instance

/-- Shorthand turning a Lean string literal into a `Str`. -/
def str (s : String) : Str := s.data

/-- Python `s.lstrip()`-side of `strip`: drop leading whitespace. -/
def dropLeading (s : Str) : Str := List.dropWhile Char.isWhitespace s

/-- Python `s.strip()`: drop leading and trailing whitespace. -/
def pyStrip (s : Str) : Str :=
  List.reverse (dropLeading (List.reverse (dropLeading s)))

/-- Python `s.split(sep)` for a one-character separator: split at every
occurrence, keeping empty pieces (`"".split(",") == [""]`). -/
def pySplit (c : Char) : Str → List Str
  | [] => [[]]
  | x :: xs =>
      match pySplit c xs, decide (x = c) with
      | rest, true => [] :: rest
      | [], false => [[x]]
      | y :: ys, false => (x :: y) :: ys

/-- Python `s.startswith(p)`. -/
def pyStartsWith (p s : Str) : Bool :=
  match p, s with
  | [], _ => true
  | _ :: _, [] => false
  | a :: as, b :: bs => a = b && pyStartsWith as bs

/-- Decimal value of the remaining characters of a Python integer
literal, allowing single underscores between digits
(`int("1_000") == 1000`); `none` when a character is neither a digit nor
a well-placed underscore. -/
def pyDigitsAux : Str → Nat → Option Nat
  | [], acc => some acc
  | '_' :: c :: rest, acc =>
      if c.isDigit then pyDigitsAux rest (acc * 10 + (c.toNat - 48)) else none
  | c :: rest, acc =>
      if c.isDigit then pyDigitsAux rest (acc * 10 + (c.toNat - 48)) else none

/-- Parse a nonempty digit run (first character must be a digit). -/
def pyParseDigits : Str → Option Nat
  | [] => none
  | c :: rest => if c.isDigit then pyDigitsAux rest (c.toNat - 48) else none

/-- Python `int(s)` on an already-stripped string: optional sign followed
by a nonempty digit run; `none` models the raised `ValueError`.
(Non-ASCII digit forms accepted by CPython are out of scope.) -/
def pyInt (s : Str) : Option Int :=
  match s with
  | '-' :: rest => (pyParseDigits rest).map (fun n => -(n : Int))
  | '+' :: rest => (pyParseDigits rest).map (fun n => (n : Int))
  | l => (pyParseDigits l).map (fun n => (n : Int))

/-- Python `s.isdigit()`: nonempty and every character a decimal ASCII
digit (CPython also accepts other Unicode digit forms; out of scope). -/
def pyIsDigit (s : Str) : Bool :=
  !s.isEmpty && s.all Char.isDigit

/-- Truthiness of an optional string (`None` and `""` are falsy). -/
def pyTruthyStr : Option Str → Bool
  | none => false
  | some s => !s.isEmpty

/-- Python `str()` of an optional value: `str(None) == "None"`. -/
def pyStrOpt : Option Str → Str
  | none => str "None"
  | some s => s

/-- Python list indexing `l[i]` with negative-index wraparound; `none`
models the raised `IndexError`. -/
def pyIndex {α : Type} (l : List α) (i : Int) : Option α :=
  if 0 ≤ i then l.get? i.toNat
  else if (-i).toNat ≤ l.length then l.get? (l.length - (-i).toNat) else none

/-- Lookup in a Python dict built from an insertion list: a later
insertion with the same key overrides an earlier one. -/
def pyDictLookup {α : Type} (l : List (Str × α)) (k : Str) : Option α :=
  (l.reverse.find? (fun p => p.1 = k)).map (fun p => p.2)

/-! ### Remote Service Client: `calculate_price` -/

/-- One entry of the remote `services` reply, as `calculate_price` reads
it: the `service` field (an absent field prints as `"None"` under
`str`), and the `rate` field — `none` when the key is absent (Python
defaults it to `0`), `some none` when present but not parseable by
`float`, `some (some r)` when numeric with value `r`. -/
structure Service where
  service : Option Str
  rate : Option (Option ℚ)
  deriving DecidableEq

/-- The `for service in data` loop of `calculate_price` (`src/bot.py`
lines 23-27): the first entry whose `str(service.get("service"))` equals
the (string) `service_id` decides the outcome; `price = float(rate)`
with the absent key defaulting to `0`, `total = (price * quantity) /
1000`, result `(total, price)`.  A non-numeric `rate` makes `float`
raise, which the catch-all converts to the `(None, None)` sentinel,
i.e. `none` — the same `none` as falling off the loop. -/
def priceScan (service_id : Str) (quantity : Int) :
    List Service → Option (ℚ × ℚ)
  | [] => none
  | s :: rest =>
      if pyStrOpt s.service = service_id then
        match s.rate with
        | none => some ((0 * quantity) / 1000, 0)
        | some none => none
        | some (some r) => some ((r * quantity) / 1000, r)
      else priceScan service_id quantity rest

/-- `calculate_price(service_id, quantity)` from `src/bot.py` lines
17-30: fetch the service list and scan it with `priceScan`.  `data =
none` models a failed fetch/parse of the `services` call (the catch-all
`except` turns any such failure into `(None, None)`). -/
def calculate_price (data : Option (List Service)) (service_id : Str)
    (quantity : Int) : Option (ℚ × ℚ) :=
  match data with
  | none => none
  | some services => priceScan service_id quantity services

/-! ### Conversation Controller: state, events, results -/

/-- The `order_details` dictionary stored by the quantity handler
(`src/bot.py` lines 342-346); it is only ever written with all three
keys present. -/
structure OrderDetails where
  service_id : Str
  link : Str
  quantity : Int
  deriving DecidableEq

/-- The per-user `context.user_data` dictionary.  An absent key and an
explicit `False`/`None` are indistinguishable to every `get` in the
source, so optional fields are `Option` and flags are `Bool`;
`context.user_data.clear()` is `emptyUserData`.  The `services` field
stores the insertion list of the dict built at `src/bot.py` line 227:
key `"serv_" ++ id` mapped to the `(id, label)` tuple. -/
structure UserData where
  selected_service_id : Option Str := none
  service_info : Option Str := none
  link : Option Str := none
  categories : Option (List Str) := none
  services : Option (List (Str × (Str × Str))) := none
  order_details : Option OrderDetails := none
  awaiting_link : Bool := false
  awaiting_quantity : Bool := false
  awaiting_order_status : Bool := false
  awaiting_cancel_orders : Bool := false
  deriving DecidableEq

/-- A fresh (or fully cleared) `context.user_data`. -/
def emptyUserData : UserData := {}

/-- Results of the Remote Service Client operations the controller
calls, supplied by the environment: each Python client function catches
its own exceptions and always returns, so from the controller's side it
is a total oracle.  `serviceData` is the services reply that
`calculate_price` reads; `placeOrder` is the `order` field of the `add`
reply (`none` on failure or when the field is absent; Python treats a
`0` id as falsy). -/
structure Remote where
  serviceData : Option (List Service)
  fetchCategories : List Str
  fetchServices : Str → List (Str × Str)
  placeOrder : Str → Str → Int → Option Nat
  cancelResult : Str → Str
  orderStatus : Str → Str
  balance : Str

/-- One reply sent to the user; one constructor per `reply_text` call
site in the source, carrying the dynamic data interpolated into the
message text. -/
inductive Msg where
  | mainMenu
  | loadCategoriesError
  | chooseCategory
  | balanceMsg (b : Str)
  | askOrderNumber
  | askCancelIds
  | askQuantity
  | quantityParseError
  | quantityRangeError
  | internalStateError
  | priceError
  | confirmPrompt (link : Str) (qty : Int) (rate total : ℚ)
  | invalidOrderNumber
  | statusMsg (s : Str)
  | tooManyCancel
  | cancelIdsNotDigits
  | cancelResult (s : Str)
  | serviceChosenPrompt (info : Str)
  | noCategoryServices
  | chooseService (category : Str)
  | orderPlaced (orderId : Nat) (link : Str) (qty : Int) (rate total : ℚ)
  | orderCreateError
  | orderCancelled
  deriving DecidableEq

/-- Outcome of one handler invocation: the user-data afterwards, the
replies sent, and — when a Python exception escaped the handler — the
name of that exception (`raised`), with `state` frozen at the moment of
the raise. -/
structure Result where
  state : UserData
  msgs : List Msg
  raised : Option String := none
  deriving DecidableEq

/-! ### The handlers -/

/-- The `/start` handler (`src/bot.py` lines 183-193): shows the main
menu, touches no state. -/
def start (st : UserData) : Result :=
  ⟨st, [Msg.mainMenu], none⟩

/-- The `handle_message` handler (`src/bot.py` lines 267-376).  Branches
are tried in source order: the four exact-match menu texts first, then
the awaiting-flags (`awaiting_link`, `awaiting_quantity`,
`awaiting_order_status`, `awaiting_cancel_orders`); a message matching
no branch does nothing. -/
def handle_message (r : Remote) (st : UserData) (rawText : Str) : Result :=
  let text := pyStrip rawText
  if text = str "🛒 Оформить заказ" then
    let categories := r.fetchCategories
    if categories.isEmpty then ⟨st, [Msg.loadCategoriesError], none⟩
    else ⟨{ st with categories := some categories }, [Msg.chooseCategory], none⟩
  else if text = str "💰 Баланс" then
    ⟨st, [Msg.balanceMsg r.balance], none⟩
  else if text = str "📦 Статус заказа" then
    ⟨{ st with awaiting_order_status := true }, [Msg.askOrderNumber], none⟩
  else if text = str "❌ Отменить заказ" then
    ⟨{ st with awaiting_cancel_orders := true }, [Msg.askCancelIds], none⟩
  else if st.awaiting_link then
    ⟨{ st with link := some text, awaiting_link := false, awaiting_quantity := true },
      [Msg.askQuantity], none⟩
  else if st.awaiting_quantity then
    match pyInt text with
    | none => ⟨st, [Msg.quantityParseError], none⟩
    | some q =>
      if q < 10 ∨ q > 50000 then ⟨st, [Msg.quantityRangeError], none⟩
      else if !(pyTruthyStr st.selected_service_id && pyTruthyStr st.link) then
        ⟨st, [Msg.internalStateError], none⟩
      else
        let sid := st.selected_service_id.getD []
        let lnk := st.link.getD []
        match calculate_price r.serviceData sid q with
        | none => ⟨st, [Msg.priceError], none⟩
        | some (total, rate) =>
            ⟨{ st with order_details := some ⟨sid, lnk, q⟩ },
              [Msg.confirmPrompt lnk q rate total], none⟩
  else if st.awaiting_order_status then
    let st1 := { st with awaiting_order_status := false }
    if !(pyIsDigit text) then ⟨st1, [Msg.invalidOrderNumber], none⟩
    else ⟨st1, [Msg.statusMsg (r.orderStatus text)], none⟩
  else if st.awaiting_cancel_orders then
    let st1 := { st with awaiting_cancel_orders := false }
    let ids := pySplit ',' (pyStrip text)
    if ids.length > 100 then ⟨st1, [Msg.tooManyCancel], none⟩
    else if !(ids.all (fun i => pyIsDigit (pyStrip i))) then
      ⟨st1, [Msg.cancelIdsNotDigits], none⟩
    else ⟨st1, [Msg.cancelResult (r.cancelResult (pyStrip text))], none⟩
  else ⟨st, [], none⟩

/-- The `button` callback handler (`src/bot.py` lines 195-265).  The
`serv_`/`cat_` payload prefix is dispatched first; `confirm_order` and
`cancel_order` follow.  Accesses written with `[...]` in the source
(`user_data['service_info']`, `user_data["categories"]`,
`order_details["service_id"]`, the category list index, `int(...)` of
the payload, and the `.2f`-formatting of a `None` rate) raise when their
target is absent or malformed, and nothing in the source catches them:
`raised` records the escape, with the state as mutated up to that
point. -/
def button (r : Remote) (st : UserData) (data : Str) : Result :=
  if pyStartsWith (str "serv_") data then
    match (pySplit '_' data).get? 1 with
    | none => ⟨st, [], some "IndexError"⟩
    | some sid =>
      let st1 := { st with selected_service_id := some sid }
      let services := st1.services.getD []
      let st2 :=
        match pyDictLookup services (str "serv_" ++ sid) with
        | some entry => { st1 with service_info := some entry.2 }
        | none => st1
      match st2.service_info with
      | none => ⟨st2, [], some "KeyError"⟩
      | some info => ⟨{ st2 with awaiting_link := true },
          [Msg.serviceChosenPrompt info], none⟩
  else if pyStartsWith (str "cat_") data then
    match (pySplit '_' data).get? 1 with
    | none => ⟨st, [], some "IndexError"⟩
    | some idxStr =>
      match pyInt idxStr with
      | none => ⟨st, [], some "ValueError"⟩
      | some idx =>
        match st.categories with
        | none => ⟨st, [], some "KeyError"⟩
        | some cats =>
          match pyIndex cats idx with
          | none => ⟨st, [], some "IndexError"⟩
          | some category =>
            let services := r.fetchServices category
            let servMap := services.map (fun s => (str "serv_" ++ s.1, s))
            if services.isEmpty then ⟨st, [Msg.noCategoryServices], none⟩
            else ⟨{ st with services := some servMap },
                [Msg.chooseService category], none⟩
  else if data = str "confirm_order" then
    match st.order_details with
    | none => ⟨st, [], some "KeyError"⟩
    | some od =>
      match r.placeOrder od.service_id od.link od.quantity with
      | some oid =>
        if oid ≠ 0 then
          match calculate_price r.serviceData od.service_id od.quantity with
          | none => ⟨st, [], some "TypeError"⟩
          | some (total, rate) =>
              ⟨emptyUserData,
                [Msg.orderPlaced oid od.link od.quantity rate total], none⟩
        else ⟨emptyUserData, [Msg.orderCreateError], none⟩
      | none => ⟨emptyUserData, [Msg.orderCreateError], none⟩
  else if data = str "cancel_order" then
    ⟨emptyUserData, [Msg.orderCancelled], none⟩
  else ⟨st, [], none⟩

/-! ### Derived predicates on the controller -/

/-- The four exact-match main-menu texts, checked (in this order) before
any awaiting-flag in `handle_message`. -/
def isMenuText (t : Str) : Bool :=
  decide (t = str "🛒 Оформить заказ") || decide (t = str "💰 Баланс") ||
    decide (t = str "📦 Статус заказа") || decide (t = str "❌ Отменить заказ")

/-- The two menu texts whose branches set an awaiting-flag without
clearing the others. -/
def statusOrCancelMenu (t : Str) : Bool :=
  decide (t = str "📦 Статус заказа") || decide (t = str "❌ Отменить заказ")

/-- The quantity gate of the confirmation step: the input parses as an
integer and the parsed value is in `[10, 50000]` (the code rejects on
`quantity < 10 or quantity > 50000`). -/
def quantityAccepted (t : Str) : Bool :=
  match pyInt t with
  | none => false
  | some q => !(decide (q < 10) || decide (q > 50000))

/-- The cancel-ids gate: the comma-split list has at most 100 entries
and every entry, after trimming, is nonempty and all-digits. -/
def cancelAccepted (t : Str) : Bool :=
  let ids := pySplit ',' (pyStrip t)
  decide (ids.length ≤ 100) && ids.all (fun i => pyIsDigit (pyStrip i))

/-- How many awaiting-flags are set. -/
def awaitingCount (s : UserData) : Nat :=
  (cond s.awaiting_link 1 0) + (cond s.awaiting_quantity 1 0) +
    (cond s.awaiting_order_status 1 0) + (cond s.awaiting_cancel_orders 1 0)

/-- The spec's claimed invariant: at most one awaiting-flag is set. -/
def atMostOneAwaiting (s : UserData) : Bool :=
  awaitingCount s ≤ 1

/-- No awaiting-flag is set (the Idle shape of the state). -/
def noAwaiting (s : UserData) : Bool :=
  !s.awaiting_link && !s.awaiting_quantity &&
    !s.awaiting_order_status && !s.awaiting_cancel_orders

/-- States reachable from a fresh session by any sequence of
conversation events (session start, free-text message, button press),
with the remote oracle free to answer differently at every step. -/
inductive Reachable : UserData → Prop
  | init : Reachable emptyUserData
  | startEv {s : UserData} : Reachable s → Reachable (start s).state
  | msg {s : UserData} (r : Remote) (t : Str) :
      Reachable s → Reachable (handle_message r s t).state
  | btn {s : UserData} (r : Remote) (d : Str) :
      Reachable s → Reachable (button r s d).state

/-- Reachability restricted to event sequences in which the two
flag-setting menu commands and the service-selection button are only
used from a state with no awaiting-flag set (the amended hypothesis
under which the at-most-one-flag invariant does hold). -/
inductive GReachable : UserData → Prop
  | init : GReachable emptyUserData
  | startEv {s : UserData} : GReachable s → GReachable (start s).state
  | msg {s : UserData} (r : Remote) (t : Str) :
      GReachable s →
      (statusOrCancelMenu (pyStrip t) = true → noAwaiting s = true) →
      GReachable (handle_message r s t).state
  | btn {s : UserData} (r : Remote) (d : Str) :
      GReachable s →
      (pyStartsWith (str "serv_") d = true → noAwaiting s = true) →
      GReachable (button r s d).state

/-- A remote oracle on which every call fails or returns nothing. -/
def trivialRemote : Remote where
  serviceData := none
  fetchCategories := []
  fetchServices := fun _ => []
  placeOrder := fun _ _ _ => none
  cancelResult := fun _ => []
  orderStatus := fun _ => []
  balance := []

/-- A remote oracle with one category `"SMM"` holding one service
`("1", "lbl")`. -/
def menuRemote : Remote :=
  { trivialRemote with
      fetchCategories := [str "SMM"]
      fetchServices := fun _ => [(str "1", str "lbl")] }

/-- A remote oracle that places every order as `9001` but whose
services reply is an empty list, so the price recomputation after
placement fails. -/
def orderRemote : Remote :=
  { trivialRemote with
      placeOrder := fun _ _ _ => some 9001
      serviceData := some [] }

/-- A remote oracle that places every order as `9001` and prices
service `"1"` at rate `10`. -/
def placedRemote : Remote :=
  { trivialRemote with
      placeOrder := fun _ _ _ => some 9001
      serviceData := some [⟨some (str "1"), some (some 10)⟩] }

/-! ### Characterising `calculate_price` -/

/-- The loop guard of `calculate_price`:
`str(service.get("service")) == str(service_id)`. -/
def serviceMatches (service_id : Str) (s : Service) : Bool :=
  pyStrOpt s.service = service_id

/-- The outcome `calculate_price` produces from the first matching
entry, as a function of that entry's `rate` field. -/
def rateOutcome (quantity : Int) (s : Service) : Option (ℚ × ℚ) :=
  match s.rate with
  | none => some ((0 * quantity) / 1000, 0)
  | some none => none
  | some (some r) => some ((r * quantity) / 1000, r)

lemma priceScan_eq_find (service_id : Str) (quantity : Int)
    (l : List Service) :
    priceScan service_id quantity l =
      (l.find? (serviceMatches service_id)).bind (rateOutcome quantity) := by
  induction l with
  | nil => rfl
  | cons s rest ih =>
      by_cases h : pyStrOpt s.service = service_id
      · simp only [priceScan, List.find?_cons, serviceMatches, h]
        simp [rateOutcome]
      · simp only [priceScan, List.find?_cons, serviceMatches, h]
        simp [h, ih]

/-- C6: `calculate_price` scans the fetched service list in order; the
first entry whose identifier string-compares equal to `service_id`
yields `(rate * quantity / 1000, rate)`; a failed fetch (`data = none`)
or no matching entry yields the `(None, None)` sentinel; and on a
catalogue holding a service `"1"` with rate `10.0`,
`compute_price("1", 500)` returns total `5.0` and rate `10.0`. -/
theorem calculate_price_spec :
    (∀ (service_id : Str) (quantity : Int),
        calculate_price none service_id quantity = none)
    ∧ (∀ (l : List Service) (service_id : Str) (quantity : Int),
        l.find? (serviceMatches service_id) = none →
        calculate_price (some l) service_id quantity = none)
    ∧ (∀ (l : List Service) (service_id : Str) (quantity : Int)
        (s : Service) (r : ℚ),
        l.find? (serviceMatches service_id) = some s →
        s.rate = some (some r) →
        calculate_price (some l) service_id quantity
          = some ((r * quantity) / 1000, r))
    ∧ calculate_price (some [⟨some (str "1"), some (some 10)⟩]) (str "1") 500
        = some (5, 10) := by
  refine ⟨fun _ _ => rfl, ?_, ?_,
    by norm_num [calculate_price, priceScan, pyStrOpt]⟩
  · intro l service_id quantity hf
    simp [calculate_price, priceScan_eq_find, hf]
  · intro l service_id quantity s r hf hr
    simp [calculate_price, priceScan_eq_find, hf, rateOutcome, hr]

/-- Witness for `calculate_price_spec`: the no-match and first-match
clauses evaluated on concrete catalogues. -/
theorem calculate_price_spec_witness :
    calculate_price (some [⟨some (str "2"), some (some 3)⟩]) (str "1") 100
      = none
    ∧ calculate_price
        (some [⟨some (str "7"), some none⟩, ⟨some (str "5"), some (some 4)⟩])
        (str "5") 250
        = some (1, 4) := by
  constructor
  · exact calculate_price_spec.2.1 _ (str "1") 100 (by decide)
  · exact (calculate_price_spec.2.2.1 _ (str "5") 250
      ⟨some (str "5"), some (some 4)⟩ 4 (by decide) rfl).trans (by norm_num)

/-- C8: the total is linear in the quantity — whenever pricing the same
catalogue at `q` and at `2 * q` both succeed, the second total is
exactly twice the first. -/
theorem calculate_price_linear (d : Option (List Service)) (sid : Str)
    (q : Int) (t₁ r₁ t₂ r₂ : ℚ)
    (h₁ : calculate_price d sid q = some (t₁, r₁))
    (h₂ : calculate_price d sid (2 * q) = some (t₂, r₂)) :
    t₂ = 2 * t₁ := by
  cases d with
  | none => simp [calculate_price] at h₁
  | some l =>
      simp only [calculate_price, priceScan_eq_find] at h₁ h₂
      cases hf : l.find? (serviceMatches sid) with
      | none => rw [hf] at h₁; simp at h₁
      | some s =>
          rw [hf] at h₁ h₂
          cases hr : s.rate with
          | none =>
              simp only [Option.some_bind, rateOutcome, hr,
                Option.some.injEq, Prod.mk.injEq] at h₁ h₂
              obtain ⟨ht₁, -⟩ := h₁
              obtain ⟨ht₂, -⟩ := h₂
              subst ht₁ ht₂
              simp
          | some orate =>
              cases orate with
              | none => simp [rateOutcome, hr] at h₁
              | some r =>
                  simp only [Option.some_bind, rateOutcome, hr,
                    Option.some.injEq, Prod.mk.injEq] at h₁ h₂
                  obtain ⟨ht₁, -⟩ := h₁
                  obtain ⟨ht₂, -⟩ := h₂
                  subst ht₁ ht₂
                  push_cast
                  ring

/-- Witness for `calculate_price_linear`: the catalogue of scenario B
priced at 500 and at 1000. -/
theorem calculate_price_linear_witness :
    calculate_price (some [⟨some (str "1"), some (some 10)⟩]) (str "1") 500
        = some (5, 10)
    ∧ calculate_price (some [⟨some (str "1"), some (some 10)⟩]) (str "1")
        (2 * 500) = some (10, 10)
    ∧ (10 : ℚ) = 2 * 5 :=
  ⟨by norm_num [calculate_price, priceScan, pyStrOpt],
    by norm_num [calculate_price, priceScan, pyStrOpt],
    calculate_price_linear (some [⟨some (str "1"), some (some 10)⟩]) (str "1")
      500 5 10 10 10 (by norm_num [calculate_price, priceScan, pyStrOpt])
      (by norm_num [calculate_price, priceScan, pyStrOpt])⟩

/-- C10: when the first matching catalogue entry has no `rate` field,
`calculate_price` does not fail: Python defaults the rate to `0` and the
call succeeds with `(0.0, 0.0)`, for every quantity. -/
theorem calculate_price_missing_rate (l : List Service) (sid : Str)
    (q : Int) (s : Service)
    (hf : l.find? (serviceMatches sid) = some s) (hr : s.rate = none) :
    calculate_price (some l) sid q = some (0, 0)
    ∧ calculate_price (some l) sid q ≠ none := by
  have h : calculate_price (some l) sid q = some (0, 0) := by
    simp [calculate_price, priceScan_eq_find, hf, rateOutcome, hr]
  exact ⟨h, by simp [h]⟩

/-- Witness for `calculate_price_missing_rate`: a one-entry catalogue
whose entry lacks the rate field. -/
theorem calculate_price_missing_rate_witness :
    calculate_price (some [⟨some (str "3"), none⟩]) (str "3") 42 = some (0, 0)
    ∧ calculate_price (some [⟨some (str "3"), none⟩]) (str "3") 42 ≠ none :=
  calculate_price_missing_rate [⟨some (str "3"), none⟩] (str "3") 42
    ⟨some (str "3"), none⟩ (by decide) rfl

/-! ### Branch lemmas for `handle_message` -/

/-- In the quantity-awaiting state a non-menu message is processed by
the `awaiting_quantity` branch (`src/bot.py` lines 304-350). -/
lemma handle_message_quantity (r : Remote) (st : UserData) (rawText : Str)
    (hq : st.awaiting_quantity = true)
    (hl : st.awaiting_link = false)
    (hm : isMenuText (pyStrip rawText) = false) :
    handle_message r st rawText =
      match pyInt (pyStrip rawText) with
      | none => ⟨st, [Msg.quantityParseError], none⟩
      | some q =>
        if q < 10 ∨ q > 50000 then ⟨st, [Msg.quantityRangeError], none⟩
        else if !(pyTruthyStr st.selected_service_id && pyTruthyStr st.link) then
          ⟨st, [Msg.internalStateError], none⟩
        else
          match calculate_price r.serviceData (st.selected_service_id.getD []) q with
          | none => ⟨st, [Msg.priceError], none⟩
          | some (total, rate) =>
              ⟨{ st with order_details := some ⟨st.selected_service_id.getD [], st.link.getD [], q⟩ },
                [Msg.confirmPrompt (st.link.getD []) q rate total], none⟩ := by
  simp only [isMenuText, Bool.or_eq_false_iff, decide_eq_false_iff_not] at hm
  obtain ⟨⟨⟨h1, h2⟩, h3⟩, h4⟩ := hm
  unfold handle_message
  simp [h1, h2, h3, h4, hl, hq]

/-- In the cancel-awaiting state a non-menu message is processed by the
`awaiting_cancel_orders` branch (`src/bot.py` lines 363-376). -/
lemma handle_message_cancel (r : Remote) (st : UserData) (rawText : Str)
    (hc : st.awaiting_cancel_orders = true)
    (hl : st.awaiting_link = false)
    (hq : st.awaiting_quantity = false)
    (hs : st.awaiting_order_status = false)
    (hm : isMenuText (pyStrip rawText) = false) :
    handle_message r st rawText =
      (let st1 := { st with awaiting_cancel_orders := false }
      let ids := pySplit ',' (pyStrip (pyStrip rawText))
      if ids.length > 100 then ⟨st1, [Msg.tooManyCancel], none⟩
      else if !(ids.all (fun i => pyIsDigit (pyStrip i))) then
        ⟨st1, [Msg.cancelIdsNotDigits], none⟩
      else ⟨st1, [Msg.cancelResult (r.cancelResult (pyStrip (pyStrip rawText)))], none⟩) := by
  simp only [isMenuText, Bool.or_eq_false_iff, decide_eq_false_iff_not] at hm
  obtain ⟨⟨⟨h1, h2⟩, h3⟩, h4⟩ := hm
  unfold handle_message
  simp [h1, h2, h3, h4, hl, hq, hs, hc]

set_option maxHeartbeats 2000000 in
/-- Every branch of `handle_message` builds its `Result` with
`raised := none`: the free-text handler never lets an exception
escape. -/
lemma handle_message_raised_none (r : Remote) (st : UserData) (t : Str) :
    (handle_message r st t).raised = none := by
  unfold handle_message
  dsimp only
  by_cases h1 : pyStrip t = str "🛒 Оформить заказ"
  · rw [if_pos h1]
    by_cases he : r.fetchCategories.isEmpty = true
    · rw [if_pos he]
    · rw [if_neg he]
  · rw [if_neg h1]
    by_cases h2 : pyStrip t = str "💰 Баланс"
    · rw [if_pos h2]
    · rw [if_neg h2]
      by_cases h3 : pyStrip t = str "📦 Статус заказа"
      · rw [if_pos h3]
      · rw [if_neg h3]
        by_cases h4 : pyStrip t = str "❌ Отменить заказ"
        · rw [if_pos h4]
        · rw [if_neg h4]
          by_cases hal : st.awaiting_link = true
          · rw [if_pos hal]
          · rw [if_neg hal]
            by_cases haq : st.awaiting_quantity = true
            · rw [if_pos haq]
              cases hpi : pyInt (pyStrip t) with
              | none => rfl
              | some q =>
                  dsimp only
                  by_cases hr : q < 10 ∨ q > 50000
                  · rw [if_pos hr]
                  · rw [if_neg hr]
                    by_cases ht : (!(pyTruthyStr st.selected_service_id &&
                        pyTruthyStr st.link)) = true
                    · rw [if_pos ht]
                    · rw [if_neg ht]
                      cases hcp : calculate_price r.serviceData
                          (st.selected_service_id.getD []) q with
                      | none => rfl
                      | some pr => cases pr; rfl
            · rw [if_neg haq]
              by_cases hos : st.awaiting_order_status = true
              · rw [if_pos hos]
                by_cases hd : (!pyIsDigit (pyStrip t)) = true
                · rw [if_pos hd]
                · rw [if_neg hd]
              · rw [if_neg hos]
                by_cases hco : st.awaiting_cancel_orders = true
                · rw [if_pos hco]
                  by_cases hlen : (pySplit ',' (pyStrip (pyStrip t))).length > 100
                  · rw [if_pos hlen]
                  · rw [if_neg hlen]
                    by_cases hdig : (!((pySplit ',' (pyStrip (pyStrip t))).all
                        (fun i => pyIsDigit (pyStrip i)))) = true
                    · rw [if_pos hdig]
                    · rw [if_neg hdig]
                · rw [if_neg hco]

set_option maxHeartbeats 1000000 in
/-- `handle_message` preserves the at-most-one-flag invariant when the
two flag-setting menu commands only arrive with no flag set. -/
lemma handle_message_atMostOne (r : Remote) (st : UserData) (rawText : Str)
    (hg : statusOrCancelMenu (pyStrip rawText) = true → noAwaiting st = true)
    (h : atMostOneAwaiting st = true) :
    atMostOneAwaiting (handle_message r st rawText).state = true := by
  obtain ⟨sid, sinfo, slink, scats, ssvcs, sod, al, aq, aos, aco⟩ := st
  simp only [atMostOneAwaiting, awaitingCount, noAwaiting, statusOrCancelMenu,
    Bool.or_eq_true, decide_eq_true_eq, Bool.and_eq_true, Bool.not_eq_true'] at *
  unfold handle_message
  cases al <;> cases aq <;> cases aos <;> cases aco <;>
    simp_all <;> (repeat' split) <;> simp_all

set_option maxHeartbeats 1000000 in
/-- `button` preserves the at-most-one-flag invariant when the
service-selection press only arrives with no flag set. -/
lemma button_atMostOne (r : Remote) (st : UserData) (d : Str)
    (hg : pyStartsWith (str "serv_") d = true → noAwaiting st = true)
    (h : atMostOneAwaiting st = true) :
    atMostOneAwaiting (button r st d).state = true := by
  obtain ⟨sid, sinfo, slink, scats, ssvcs, sod, al, aq, aos, aco⟩ := st
  simp only [atMostOneAwaiting, awaitingCount, noAwaiting,
    Bool.and_eq_true, Bool.not_eq_true'] at *
  unfold button
  cases al <;> cases aq <;> cases aos <;> cases aco <;>
    simp_all <;> (repeat' split) <;> simp_all [emptyUserData]

/-! ### The claims about the controller -/

/-- C1: while `awaiting_quantity` is set, a free-text input (that is not
one of the four menu texts, which the dispatch intercepts first) passes
the quantity gate iff it parses as an integer in `[10, 50000]`; on
either rejection (non-integer or out of range) the matching error is
shown and the state is retained unchanged, so the next free text is
again read as a quantity; an accepted input never produces a
quantity-validation error, and the flag also stays set. -/
theorem quantity_confirmation_gate (r : Remote) (st : UserData) (rawText : Str)
    (hq : st.awaiting_quantity = true)
    (hl : st.awaiting_link = false)
    (hm : isMenuText (pyStrip rawText) = false) :
    (quantityAccepted (pyStrip rawText) = false →
        (handle_message r st rawText).state = st ∧
        ((handle_message r st rawText).msgs = [Msg.quantityParseError] ∨
          (handle_message r st rawText).msgs = [Msg.quantityRangeError]))
    ∧ (quantityAccepted (pyStrip rawText) = true →
        (handle_message r st rawText).msgs ≠ [Msg.quantityParseError] ∧
        (handle_message r st rawText).msgs ≠ [Msg.quantityRangeError] ∧
        (handle_message r st rawText).state.awaiting_quantity = true) := by
  have hb := handle_message_quantity r st rawText hq hl hm
  rw [hb]
  constructor
  · intro hacc
    cases hpi : pyInt (pyStrip rawText) with
    | none => simp [hpi]
    | some q =>
        simp only [quantityAccepted, hpi, Bool.not_eq_false', Bool.or_eq_true,
          decide_eq_true_eq] at hacc
        simp [hpi, if_pos hacc]
  · intro hacc
    cases hpi : pyInt (pyStrip rawText) with
    | none => simp [quantityAccepted, hpi] at hacc
    | some q =>
        simp only [quantityAccepted, hpi, Bool.not_eq_true', Bool.or_eq_false_iff,
          decide_eq_false_iff_not] at hacc
        have hrange : ¬(q < 10 ∨ q > 50000) := by omega
        simp only [hpi, if_neg hrange]
        by_cases ht : (!(pyTruthyStr st.selected_service_id && pyTruthyStr st.link)) = true
        · simp [ht, hq]
        · simp only [ht, Bool.false_eq_true, if_false]
          cases hcp : calculate_price r.serviceData (st.selected_service_id.getD []) q with
          | none => simp [hcp, hq]
          | some pr => simp [hcp, hq]

/-- Witness for `quantity_confirmation_gate`: input `"7"` while awaiting
a quantity is rejected with the state unchanged. -/
theorem quantity_confirmation_gate_witness :
    (handle_message trivialRemote { awaiting_quantity := true } (str "7")).state
        = { awaiting_quantity := true }
    ∧ ((handle_message trivialRemote { awaiting_quantity := true } (str "7")).msgs
          = [Msg.quantityParseError]
        ∨ (handle_message trivialRemote { awaiting_quantity := true } (str "7")).msgs
          = [Msg.quantityRangeError]) :=
  (quantity_confirmation_gate trivialRemote { awaiting_quantity := true } (str "7")
    rfl rfl (by decide)).1 (by decide)

/-- C5: while `awaiting_cancel_orders` is set, a free-text input (not a
menu text, with the earlier flags clear) is forwarded to the remote
cancel call iff its comma-split has at most 100 entries, all nonempty
all-digit after trimming; otherwise one of the two validation errors is
shown and no cancel result is rendered; the flag is consumed either
way. -/
theorem cancel_gate (r : Remote) (st : UserData) (rawText : Str)
    (hc : st.awaiting_cancel_orders = true)
    (hl : st.awaiting_link = false)
    (hq : st.awaiting_quantity = false)
    (hs : st.awaiting_order_status = false)
    (hm : isMenuText (pyStrip rawText) = false) :
    (handle_message r st rawText).state.awaiting_cancel_orders = false
    ∧ (cancelAccepted (pyStrip rawText) = true →
        (handle_message r st rawText).msgs
          = [Msg.cancelResult (r.cancelResult (pyStrip (pyStrip rawText)))])
    ∧ (cancelAccepted (pyStrip rawText) = false →
        ((handle_message r st rawText).msgs = [Msg.tooManyCancel]
          ∨ (handle_message r st rawText).msgs = [Msg.cancelIdsNotDigits])) := by
  rw [handle_message_cancel r st rawText hc hl hq hs hm]
  dsimp only
  by_cases hlen : (pySplit ',' (pyStrip (pyStrip rawText))).length > 100
  · rw [if_pos hlen]
    refine ⟨by simp, ?_, fun _ => by simp⟩
    intro hacc
    simp only [cancelAccepted, Bool.and_eq_true, decide_eq_true_eq] at hacc
    omega
  · rw [if_neg hlen]
    by_cases hdig : ((pySplit ',' (pyStrip (pyStrip rawText))).all
        (fun i => pyIsDigit (pyStrip i))) = true
    · simp only [hdig, Bool.not_true, Bool.false_eq_true, if_false]
      refine ⟨by simp, fun _ => by simp, ?_⟩
      intro hacc
      simp only [cancelAccepted, hdig, Bool.and_true, decide_eq_false_iff_not] at hacc
      omega
    · simp only [Bool.not_eq_true] at hdig
      simp only [hdig, Bool.not_false, if_true]
      refine ⟨by simp, ?_, fun _ => by simp⟩
      intro hacc
      simp only [cancelAccepted, hdig, Bool.and_false] at hacc
      cases hacc

/-- Witness for `cancel_gate`: scenario D, input `"12345,12346,abc"` is
rejected and the flag consumed. -/
theorem cancel_gate_witness :
    (handle_message trivialRemote { awaiting_cancel_orders := true }
        (str "12345,12346,abc")).state.awaiting_cancel_orders = false
    ∧ ((handle_message trivialRemote { awaiting_cancel_orders := true }
          (str "12345,12346,abc")).msgs = [Msg.tooManyCancel]
        ∨ (handle_message trivialRemote { awaiting_cancel_orders := true }
            (str "12345,12346,abc")).msgs = [Msg.cancelIdsNotDigits]) := by
  have h := cancel_gate trivialRemote { awaiting_cancel_orders := true }
    (str "12345,12346,abc") rfl rfl rfl rfl (by decide)
  exact ⟨h.1, h.2.2 (by decide)⟩

/-- C7 as claimed is false: on the defensive check failing, the handler
returns without clearing `awaiting_quantity` — here, valid quantity
`"100"` with no stored service/link reports the internal-state error
yet leaves the user in the quantity-awaiting state. -/
theorem internal_state_error_retains_counterexample :
    (handle_message trivialRemote { awaiting_quantity := true } (str "100")).msgs
        = [Msg.internalStateError]
    ∧ (handle_message trivialRemote { awaiting_quantity := true }
        (str "100")).state.awaiting_quantity = true := by decide

/-- C7 (amended): a valid in-range quantity with `selected_service_id`
or `link` missing (falsy) reports the internal-state error and leaves
the whole state — including the `awaiting_quantity` flag — unchanged,
so the user stays in the quantity-awaiting state. -/
theorem internal_state_error_retains (r : Remote) (st : UserData) (rawText : Str)
    (q : Int)
    (hq : st.awaiting_quantity = true)
    (hl : st.awaiting_link = false)
    (hm : isMenuText (pyStrip rawText) = false)
    (hpi : pyInt (pyStrip rawText) = some q)
    (hrange : 10 ≤ q ∧ q ≤ 50000)
    (hmiss : (pyTruthyStr st.selected_service_id && pyTruthyStr st.link) = false) :
    (handle_message r st rawText).msgs = [Msg.internalStateError]
    ∧ (handle_message r st rawText).state = st := by
  rw [handle_message_quantity r st rawText hq hl hm]
  have hr : ¬(q < 10 ∨ q > 50000) := by omega
  simp [hpi, if_neg hr, hmiss]

/-- Witness for `internal_state_error_retains`: quantity `"25"` with an
empty session. -/
theorem internal_state_error_retains_witness :
    (handle_message trivialRemote { awaiting_quantity := true } (str "25")).msgs
        = [Msg.internalStateError]
    ∧ (handle_message trivialRemote { awaiting_quantity := true } (str "25")).state
        = { awaiting_quantity := true } :=
  internal_state_error_retains trivialRemote { awaiting_quantity := true }
    (str "25") 25 rfl rfl (by decide) (by decide) (by decide) rfl

/-- C9: after a valid in-range quantity is priced successfully, the
confirmation prompt is rendered and `order_details` stored, but
`awaiting_quantity` is left set, so a further free text re-runs the
quantity step. -/
theorem quantity_flag_left_set (r : Remote) (st : UserData) (rawText : Str)
    (q : Int) (total rate : ℚ)
    (hq : st.awaiting_quantity = true)
    (hl : st.awaiting_link = false)
    (hm : isMenuText (pyStrip rawText) = false)
    (hpi : pyInt (pyStrip rawText) = some q)
    (hrange : 10 ≤ q ∧ q ≤ 50000)
    (hsid : pyTruthyStr st.selected_service_id = true)
    (hlnk : pyTruthyStr st.link = true)
    (hcp : calculate_price r.serviceData (st.selected_service_id.getD []) q
        = some (total, rate)) :
    (handle_message r st rawText).state.awaiting_quantity = true
    ∧ (handle_message r st rawText).state.order_details
        = some ⟨st.selected_service_id.getD [], st.link.getD [], q⟩
    ∧ (handle_message r st rawText).msgs
        = [Msg.confirmPrompt (st.link.getD []) q rate total] := by
  rw [handle_message_quantity r st rawText hq hl hm]
  have hr : ¬(q < 10 ∨ q > 50000) := by omega
  simp [hpi, if_neg hr, hsid, hlnk, hcp, hq]

/-- Witness for `quantity_flag_left_set`: quantity `"500"` on service
`"1"` at rate `10`. -/
theorem quantity_flag_left_set_witness :
    (handle_message placedRemote
      { awaiting_quantity := true, selected_service_id := some (str "1"),
        link := some (str "L") } (str "500")).state.awaiting_quantity = true
    ∧ (handle_message placedRemote
        { awaiting_quantity := true, selected_service_id := some (str "1"),
          link := some (str "L") } (str "500")).state.order_details
        = some ⟨str "1", str "L", 500⟩
    ∧ (handle_message placedRemote
        { awaiting_quantity := true, selected_service_id := some (str "1"),
          link := some (str "L") } (str "500")).msgs
        = [Msg.confirmPrompt (str "L") 500 10 5] :=
  quantity_flag_left_set placedRemote
    { awaiting_quantity := true, selected_service_id := some (str "1"),
      link := some (str "L") } (str "500") 500 5 10
    rfl rfl (by decide) (by decide) (by decide) rfl rfl
    (by norm_num [calculate_price, priceScan, pyStrOpt, placedRemote, trivialRemote])

/-- C2 as claimed is false: from a fresh session, placing an order up to
the awaiting-link state and then typing the status menu command reaches
a state with both `awaiting_link` and `awaiting_order_status` set,
because the menu branch sets its flag without clearing the others. -/
theorem at_most_one_flag_counterexample :
    ¬ (∀ s : UserData, Reachable s → atMostOneAwaiting s = true) := by
  intro h
  have h4 : Reachable ((handle_message menuRemote
      (button menuRemote
        (button menuRemote
          (handle_message menuRemote emptyUserData (str "🛒 Оформить заказ")).state
          (str "cat_0")).state
        (str "serv_1")).state
      (str "📦 Статус заказа")).state) :=
    Reachable.msg _ _ (Reachable.btn _ _ (Reachable.btn _ _
      (Reachable.msg _ _ Reachable.init)))
  have hv := h _ h4
  revert hv
  decide

/-- C2 (amended): at most one awaiting-flag is set in every state
reachable by event sequences in which the status/cancel menu commands
and the service-selection button press only occur while no flag is set
(the transitions that set a flag without clearing the others). -/
theorem at_most_one_flag_guarded (s : UserData) (h : GReachable s) :
    atMostOneAwaiting s = true := by
  induction h with
  | init => rfl
  | startEv _ ih => exact ih
  | msg r t _ hg ih => exact handle_message_atMostOne r _ t hg ih
  | btn r d _ hg ih => exact button_atMostOne r _ d hg ih

/-- Witness for `at_most_one_flag_guarded`: the status command from a
fresh session leaves exactly one flag set. -/
theorem at_most_one_flag_guarded_witness :
    atMostOneAwaiting
      (handle_message trivialRemote emptyUserData (str "📦 Статус заказа")).state
      = true :=
  at_most_one_flag_guarded _
    (GReachable.msg trivialRemote _ GReachable.init (fun _ => rfl))

/-- C3 as claimed is false: pressing the confirm-order button with no
stored `order_details` makes the handler read
`order_details["service_id"]` of an empty dict, raising `KeyError`. -/
theorem no_raise_counterexample :
    (button trivialRemote emptyUserData (str "confirm_order")).raised
      = some "KeyError" := by decide

/-- C3 (amended): `start` and `handle_message` never raise (and every
Remote Service Client operation is embedded as a total function), but
the `button` dispatch can: presses other than service/category selection
and confirm-order never raise; the confirm-order press raises exactly
when `order_details` is absent, or when placement returns a nonzero id
and the price recomputation fails; a service press raises exactly when
neither the stored services map nor a stale `service_info` resolves; a
category press raises exactly when the payload index does not parse, or
the categories list is absent, or the index is out of range. -/
theorem raise_characterisation :
    (∀ st : UserData, (start st).raised = none)
    ∧ (∀ (r : Remote) (st : UserData) (t : Str),
        (handle_message r st t).raised = none)
    ∧ (∀ (r : Remote) (st : UserData) (d : Str),
        pyStartsWith (str "serv_") d = false →
        pyStartsWith (str "cat_") d = false →
        d ≠ str "confirm_order" →
        (button r st d).raised = none)
    ∧ (∀ (r : Remote) (st : UserData),
        st.order_details = none →
        (button r st (str "confirm_order")).raised = some "KeyError")
    ∧ (∀ (r : Remote) (st : UserData) (od : OrderDetails),
        st.order_details = some od →
        ((button r st (str "confirm_order")).raised = none ↔
          ¬ ∃ n, r.placeOrder od.service_id od.link od.quantity = some n
              ∧ n ≠ 0
              ∧ calculate_price r.serviceData od.service_id od.quantity = none))
    ∧ (∀ (r : Remote) (st : UserData) (d sid : Str),
        pyStartsWith (str "serv_") d = true →
        (pySplit '_' d).get? 1 = some sid →
        ((button r st d).raised = none ↔
          ((pyDictLookup (st.services.getD []) (str "serv_" ++ sid)).isSome
            ∨ st.service_info.isSome)))
    ∧ (∀ (r : Remote) (st : UserData) (d idxStr : Str),
        pyStartsWith (str "serv_") d = false →
        pyStartsWith (str "cat_") d = true →
        (pySplit '_' d).get? 1 = some idxStr →
        ((button r st d).raised = none ↔
          ∃ idx cats, pyInt idxStr = some idx ∧ st.categories = some cats
            ∧ (pyIndex cats idx).isSome)) := by
  refine ⟨fun _ => rfl, handle_message_raised_none, ?_, ?_, ?_, ?_, ?_⟩
  · intro r st d h1 h2 h3
    unfold button
    rw [if_neg (by simp [h1]), if_neg (by simp [h2]), if_neg h3]
    by_cases h4 : d = str "cancel_order"
    · rw [if_pos h4]
    · rw [if_neg h4]
  · intro r st hod
    unfold button
    rw [if_neg (by decide), if_neg (by decide), if_pos rfl, hod]
  · intro r st od hod
    unfold button
    rw [if_neg (by decide), if_neg (by decide), if_pos rfl, hod]
    dsimp only
    generalize hpo : r.placeOrder od.service_id od.link od.quantity = po
    cases po with
    | none =>
        constructor
        · rintro - ⟨n, hn, -⟩; cases hn
        · intro _; rfl
    | some n =>
        dsimp only
        by_cases hn : n = 0
        · subst hn
          rw [if_neg (by simp)]
          constructor
          · rintro - ⟨m, hm, hmz, -⟩; cases hm; exact hmz rfl
          · intro _; rfl
        · rw [if_pos hn]
          generalize hcp : calculate_price r.serviceData od.service_id od.quantity = cp
          cases cp with
          | none =>
              constructor
              · intro h; cases h
              · intro hno; exact absurd ⟨n, rfl, hn, rfl⟩ hno
          | some pr =>
              cases pr
              constructor
              · rintro - ⟨m, hm, -, hc⟩; cases hc
              · intro _; rfl
  · intro r st d sid h1 hget
    unfold button
    rw [if_pos h1, hget]
    dsimp only
    generalize hlk : pyDictLookup (st.services.getD []) (str "serv_" ++ sid) = lk
    cases lk with
    | some entry => simp
    | none =>
        dsimp only
        generalize hsi : st.service_info = si
        cases si with
        | none => simp
        | some info => simp
  · intro r st d idxStr h1 h2 hget
    unfold button
    rw [if_neg (by simp [h1]), if_pos h2, hget]
    dsimp only
    generalize hpi : pyInt idxStr = pi
    cases pi with
    | none =>
        constructor
        · intro h; cases h
        · rintro ⟨idx, cats, hidx, -⟩; cases hidx
    | some idx =>
        dsimp only
        generalize hcats : st.categories = co
        cases co with
        | none =>
            constructor
            · intro h; cases h
            · rintro ⟨idx2, cats, hidx2, hc, -⟩; cases hidx2; cases hc
        | some cats =>
            dsimp only
            generalize hix : pyIndex cats idx = ix
            cases ix with
            | none =>
                constructor
                · intro h; cases h
                · rintro ⟨idx2, cats2, hidx2, hc2, hix2⟩
                  cases hidx2; cases hc2
                  rw [hix] at hix2
                  cases hix2
            | some category =>
                dsimp only
                constructor
                · intro _
                  exact ⟨idx, cats, rfl, rfl, by rw [hix]; rfl⟩
                · intro _
                  by_cases hemp : (r.fetchServices category).isEmpty = true
                  · rw [if_pos hemp]
                  · rw [if_neg hemp]

/-- Witness for `raise_characterisation`: a cancel-order press and a
confirm-order press with well-formed state both complete without a
fault. -/
theorem raise_characterisation_witness :
    (button trivialRemote emptyUserData (str "cancel_order")).raised = none
    ∧ (button trivialRemote
        { order_details := some ⟨str "1", str "L", 100⟩ }
        (str "confirm_order")).raised = none := by
  constructor
  · exact raise_characterisation.2.2.1 trivialRemote emptyUserData
      (str "cancel_order") (by decide) (by decide) (by decide)
  · exact (raise_characterisation.2.2.2.2.1 trivialRemote
      { order_details := some ⟨str "1", str "L", 100⟩ }
      ⟨str "1", str "L", 100⟩ rfl).mpr (by rintro ⟨n, hn, -⟩; cases hn)

/-- C4 as claimed is false: a confirm-order press whose placement
succeeds (`order: 9001`) but whose price recomputation fails raises
`TypeError` while formatting the success message, skipping
`user_data.clear()`, so the state is not cleared. -/
theorem clear_on_confirm_counterexample :
    (button orderRemote
        { order_details := some ⟨str "1", str "L", 100⟩, awaiting_quantity := true }
        (str "confirm_order")).raised = some "TypeError"
    ∧ (button orderRemote
        { order_details := some ⟨str "1", str "L", 100⟩, awaiting_quantity := true }
        (str "confirm_order")).state ≠ emptyUserData := by decide

/-- C4 (amended): a cancel-order press always clears the whole state;
a confirm-order press clears it whether placement succeeds or fails,
provided the branch completes — i.e. `order_details` is present and,
when placement yields a nonzero order id, the price recomputation
succeeds; on success the confirmation message carries the returned
order id, link, quantity, rate and total. -/
theorem clear_on_confirm_or_cancel (r : Remote) (st : UserData)
    (od : OrderDetails)
    (hod : st.order_details = some od)
    (hsafe : ∀ n, r.placeOrder od.service_id od.link od.quantity = some n →
        n ≠ 0 → calculate_price r.serviceData od.service_id od.quantity ≠ none) :
    (button r st (str "confirm_order")).state = emptyUserData
    ∧ (∀ (n : Nat) (t rt : ℚ),
        r.placeOrder od.service_id od.link od.quantity = some n → n ≠ 0 →
        calculate_price r.serviceData od.service_id od.quantity = some (t, rt) →
        (button r st (str "confirm_order")).msgs
          = [Msg.orderPlaced n od.link od.quantity rt t])
    ∧ (button r st (str "cancel_order")).state = emptyUserData := by
  refine ⟨?_, ?_, ?_⟩
  · unfold button
    rw [if_neg (by decide), if_neg (by decide), if_pos rfl, hod]
    dsimp only
    cases hpo : r.placeOrder od.service_id od.link od.quantity with
    | none => rfl
    | some n =>
        dsimp only
        by_cases hn : n = 0
        · subst hn
          rw [if_neg (by simp)]
        · rw [if_pos hn]
          have hne := hsafe n hpo hn
          cases hcp : calculate_price r.serviceData od.service_id od.quantity with
          | none => exact absurd hcp hne
          | some pr => cases pr; rfl
  · intro n t rt hpo hn hcp
    unfold button
    rw [if_neg (by decide), if_neg (by decide), if_pos rfl, hod]
    dsimp only
    rw [hpo]
    dsimp only
    rw [if_pos hn, hcp]
  · unfold button
    rw [if_neg (by decide), if_neg (by decide), if_neg (by decide), if_pos rfl]

/-- Witness for `clear_on_confirm_or_cancel`: both presses on a session
holding `order_details` for service `"1"`, against a remote that places
the order as `9001` and prices it; the confirmation message carries
`9001` and the state is cleared. -/
theorem clear_on_confirm_or_cancel_witness :
    (button placedRemote { order_details := some ⟨str "1", str "L", 100⟩ }
        (str "confirm_order")).state = emptyUserData
    ∧ (button placedRemote { order_details := some ⟨str "1", str "L", 100⟩ }
        (str "confirm_order")).msgs
        = [Msg.orderPlaced 9001 (str "L") 100 10 1]
    ∧ (button placedRemote { order_details := some ⟨str "1", str "L", 100⟩ }
        (str "cancel_order")).state = emptyUserData := by
  have h := clear_on_confirm_or_cancel placedRemote
    { order_details := some ⟨str "1", str "L", 100⟩ } ⟨str "1", str "L", 100⟩
    rfl (fun n hn hnz => by cases hn; decide)
  refine ⟨h.1, ?_, h.2.2⟩
  exact h.2.1 9001 1 10 rfl (by decide)
    (by norm_num [calculate_price, priceScan, pyStrOpt, placedRemote, trivialRemote])

end Boostify
